import Mathlib

/-!
Verification development for the ArtifexAI backend
(`artifex_ai_project/backend/main.py`).

The Python backend is shallowly embedded: floats become real numbers
(quantities that the code only ever produces by rational arithmetic are
carried as rationals and coerced), Python `None` becomes `Option`, Python
dicts with string keys become association lists, and SQLite tables become
association lists keyed by the normalized key the code queries with.
-/

set_option maxHeartbeats 1000000

namespace ArtifexAI

/-! ## Python string primitives

Structural re-implementations of the Python string operations the backend
uses (`str.lower`, `str.strip`, `str.split()`, substring containment),
operating on the character list underlying a `String`. -/

/-- Python `str.lower` (ASCII case folding, as used on the ASCII artist and
technique names in this backend). -/
def pyLower (s : String) : String :=
  String.mk (s.data.map Char.toLower)

/-- Drop leading and trailing whitespace from a character list. -/
def trimChars (cs : List Char) : List Char :=
  ((cs.dropWhile Char.isWhitespace).reverse.dropWhile Char.isWhitespace).reverse

/-- Python `str.strip()`. -/
def pyStrip (s : String) : String :=
  String.mk (trimChars s.data)

/-- Does the second list occur at the head of the first? -/
def leadsWith : List Char → List Char → Bool
  | _, [] => true
  | [], _ :: _ => false
  | a :: as, b :: bs => a == b && leadsWith as bs

/-- Does `sub` occur contiguously inside `hay`? -/
def containsSub (hay sub : List Char) : Bool :=
  if leadsWith hay sub then true
  else
    match hay with
    | [] => false
    | _ :: t => containsSub t sub

/-- Python `sub in s` on strings. -/
def pyIn (sub s : String) : Bool :=
  containsSub s.data sub.data

mutual

/-- Number of words of Python `s.split()` (split on whitespace runs,
empty tokens discarded): counts maximal non-whitespace runs. -/
def countWords : List Char → Nat
  | [] => 0
  | c :: cs => if Char.isWhitespace c then countWords cs else 1 + insideWord cs

def insideWord : List Char → Nat
  | [] => 0
  | c :: cs => if Char.isWhitespace c then countWords cs else insideWord cs

end

/-- Python `x or d` for an optional float `x`: `None` and `0.0` are falsy,
every other float is truthy. -/
def pyOrFloat (x : Option ℚ) (d : ℚ) : ℚ :=
  match x with
  | none => d
  | some v => if v = 0 then d else v

/-! ## Reference store (`DatabaseManager`, main.py lines 50-169)

The SQLite `artists` table is keyed by `name TEXT PRIMARY KEY` and queried
with `WHERE name = ?` on `artist_name.lower()` (default binary collation,
so the comparison is exact string equality). It is embedded as an
association list from name to record. -/

structure ArtistRecord where
  frequency : ℤ
  median_price : ℚ
  price_std : ℚ
deriving DecidableEq, Repr

/-- Default record returned for unknown artists
(main.py lines 139-145). -/
def defaultArtistRecord : ArtistRecord :=
  { frequency := 1, median_price := 500, price_std := 250 }

/-- The sample artists seeded by `init_database` when the store is empty
(main.py lines 87-93). -/
def sample_artists : List (String × ArtistRecord) :=
  [("pablo picasso", ⟨150, 50000, 25000⟩),
   ("salvador dali", ⟨80, 30000, 15000⟩),
   ("vincent van gogh", ⟨200, 75000, 40000⟩),
   ("claude monet", ⟨120, 40000, 20000⟩),
   ("andy warhol", ⟨100, 35000, 18000⟩)]

/-- `DatabaseManager.get_artist_data` (main.py lines 121-145): the query
key is `artist_name.lower()` — lower-cased but NOT stripped of
whitespace — and a miss yields the default record. -/
def get_artist_data (db : List (String × ArtistRecord)) (artist_name : String) :
    ArtistRecord :=
  match db.lookup (pyLower artist_name) with
  | some r => r
  | none => defaultArtistRecord

structure TechArtistRecord where
  median_price : ℚ
  sample_count : ℤ
deriving DecidableEq, Repr

/-- Default record for unknown technique-artist pairs
(main.py lines 164-169). -/
def defaultTechArtistRecord : TechArtistRecord :=
  { median_price := 1000, sample_count := 1 }

/-- `DatabaseManager.get_tech_artist_median` (main.py lines 147-169):
both keys are lower-cased; a miss yields the default record. -/
def get_tech_artist_median (db : List ((String × String) × TechArtistRecord))
    (technique artist : String) : TechArtistRecord :=
  match db.lookup (pyLower technique, pyLower artist) with
  | some r => r
  | none => defaultTechArtistRecord

/-! ## Input model (`ArtworkInput`, main.py lines 172-190)

The pydantic model declares field types and defaults only: there is no
range validator on any field (no bound on `year`, no positivity
requirement on `width`/`height`). -/

structure ArtworkInput where
  artist : String
  object_type : String
  technique : String
  signature : String
  condition : String
  edition_type : String
  year : ℤ
  width : ℚ
  height : ℚ
  has_edition : Bool := false
  has_certificate : Bool := false
  has_frame : Bool := false
  has_damage : Bool := false
  expert : String := "Unknown"
  colorfulness_score : Option ℚ := none
  svd_entropy : Option ℚ := none
  title : Option String := some "Untitled"
  title_word_count : Option ℤ := none

/-- Pydantic validation of a well-typed `ArtworkInput` body
(main.py lines 172-190). The model declares no validators beyond the
field types and defaults already captured by the structure, so every
well-typed value is accepted. -/
def validate_artwork_input (a : ArtworkInput) : Except String ArtworkInput :=
  Except.ok a

/-! ## Feature builder helpers (`create_all_57_features`, main.py 259-457) -/

/-- The `edition_map` lookup with default `0.0`
(main.py lines 276-283: `edition_map.get(self_edition_type_lower, 0.0)`). -/
def edition_map (s : String) : ℚ :=
  if s = "unique" then 1
  else if s = "numbered" then 2
  else if s = "limited" then 3
  else if s = "open" then 4
  else if s = "unknown" then 0
  else 0

/-- `age = 2024 - input_data.year` (main.py line 339). -/
def artwork_age (year : ℤ) : ℤ := 2024 - year

/-- `1 if age >= 100 else 0` (main.py line 341). -/
def is_antique_flag (age : ℤ) : ℤ := if 100 ≤ age then 1 else 0

/-- `1 if 20 <= age < 100 else 0` (main.py line 342). -/
def is_vintage_flag (age : ℤ) : ℤ := if 20 ≤ age ∧ age < 100 then 1 else 0

/-- `1 if age < 20 else 0` (main.py line 343). -/
def is_modern_flag (age : ℤ) : ℤ := if age < 20 then 1 else 0

/-- `np.log1p(max(0, age))` (main.py line 340); `np.log1p x = log (1 + x)`. -/
noncomputable def log_age_feature (age : ℤ) : ℝ :=
  Real.log (1 + ((max 0 age : ℤ) : ℝ))

/-- Title word count logic (main.py lines 398-403): a supplied title that
is truthy, strips to something non-empty and is not the literal
`"Untitled"` is word-counted; otherwise an explicit override count is
used; otherwise the default 3. -/
def title_word_count_feature (title : Option String) (override : Option ℤ) : ℚ :=
  match title with
  | some t =>
      if t ≠ "" ∧ pyStrip t ≠ "" ∧ pyStrip t ≠ "Untitled" then
        (countWords (pyStrip t).data : ℚ)
      else
        match override with
        | some c => (c : ℚ)
        | none => 3
  | none =>
      match override with
      | some c => (c : ℚ)
      | none => 3

/-- A feature value: pandas cells here are either strings (categorical
features) or numbers. -/
inductive FVal where
  | vStr (s : String)
  | vNum (x : ℝ)

/-- The feature dictionary built by `create_all_57_features`
(main.py lines 259-418), embedded as an association list in the exact
insertion order of the Python dict. The two database lookups are made
against the explicitly passed stores `adb` (artists) and `tdb`
(technique-artist medians); `image_features` is the optional explicit
image-feature argument. Purely rational quantities are carried as `ℚ` and
coerced into the real-valued cells; the `np.log1p` features live in `ℝ`. -/
noncomputable def create_features
    (adb : List (String × ArtistRecord))
    (tdb : List ((String × String) × TechArtistRecord))
    (input_data : ArtworkInput)
    (image_features : Option (ℚ × ℚ)) : List (String × FVal) :=
  let artist_data := get_artist_data adb input_data.artist
  -- 1. Basic categorical features (main.py 267-273)
  let OBJECT := pyLower input_data.object_type
  let ARTIST := pyStrip (pyLower input_data.artist)
  let EXPERT := pyLower input_data.expert
  let TECHNIQUE_SIMPLE := pyLower input_data.technique
  let SIGNATURE_SIMPLE := pyLower input_data.signature
  let CONDITION_SIMPLE := pyLower input_data.condition
  -- 2. Edition type mapping (main.py 275-284)
  let edition_type_code : ℚ := edition_map (pyLower input_data.edition_type)
  let EDITION_TYPE := pyLower input_data.edition_type
  -- 3. Basic numeric features (main.py 286-291)
  let width : ℚ := input_data.width
  let height : ℚ := input_data.height
  let area : ℚ := width * height
  -- 4. Binary signature features (main.py 293-296)
  let has_hand_signed : ℚ := if pyIn "hand" SIGNATURE_SIMPLE then 1 else 0
  let has_plate_signed : ℚ := if pyIn "plate" SIGNATURE_SIMPLE then 1 else 0
  let has_unsigned : ℚ := if pyIn "unsigned" SIGNATURE_SIMPLE then 1 else 0
  -- 5. Binary technique features (main.py 298-302)
  let has_etching : ℚ := if pyIn "etching" TECHNIQUE_SIMPLE then 1 else 0
  let has_lithograph : ℚ := if pyIn "lithograph" TECHNIQUE_SIMPLE then 1 else 0
  let has_woodcut : ℚ := if pyIn "woodcut" TECHNIQUE_SIMPLE then 1 else 0
  let has_screenprint : ℚ := if pyIn "screenprint" TECHNIQUE_SIMPLE then 1 else 0
  -- 6. Binary edition features (main.py 304-309)
  let has_limited_edition : ℚ := if pyIn "limited" EDITION_TYPE then 1 else 0
  let has_certificate : ℚ := if input_data.has_certificate then 1 else 0
  let has_frame : ℚ := if input_data.has_frame then 1 else 0
  let has_damage : ℚ := if input_data.has_damage then 1 else 0
  let has_edition : ℚ := if input_data.has_edition then 1 else 0
  -- 7. Image features (main.py 311-317): the explicit argument wins,
  -- otherwise the request-level fields through Python `or`
  let colorfulness_score : ℚ :=
    match image_features with
    | some f => f.1
    | none => pyOrFloat input_data.colorfulness_score 0
  let svd_entropy_feature : ℚ :=
    match image_features with
    | some f => f.2
    | none => pyOrFloat input_data.svd_entropy 0
  -- 8. Advanced dimension features (main.py 319-325), ε = 1e-8
  let aspect_ratio : ℚ := width / (height + 1 / 100000000)
  let area_per_width : ℚ := area / (width + 1 / 100000000)
  let area_per_height : ℚ := area / (height + 1 / 100000000)
  -- 9. Size category (main.py 327-336)
  let size_category : String :=
    if area ≤ 100 then "tiny"
    else if area ≤ 1000 then "small"
    else if area ≤ 5000 then "medium"
    else "large"
  -- 10. Age features (main.py 338-343)
  let age : ℤ := artwork_age input_data.year
  -- 11. Year category (main.py 345-356)
  let year_category : String :=
    if input_data.year < 1900 then "pre_1900"
    else if input_data.year < 1950 then "early_1900s"
    else if input_data.year < 1980 then "mid_1900s"
    else if input_data.year < 2000 then "late_1900s"
    else "modern"
  -- 12. Artist popularity features (main.py 358-364)
  let artist_rarity : ℚ := 1 / ((artist_data.frequency : ℚ) + 1)
  let is_rare_artist : ℚ := if artist_data.frequency ≤ 5 then 1 else 0
  let is_popular_artist : ℚ := if 50 ≤ artist_data.frequency then 1 else 0
  let is_very_popular_artist : ℚ := if 100 ≤ artist_data.frequency then 1 else 0
  -- 13. Technique complexity features (main.py 366-375)
  let technique_count : ℚ :=
    has_etching + has_lithograph + has_woodcut + has_screenprint
  let technique_score : ℚ :=
    has_etching * 2 + has_lithograph * 2 + has_woodcut * 3 + has_screenprint * 1
  let has_multiple_techniques : ℚ := if 1 < technique_count then 1 else 0
  -- 14. Aggregate signature flag (main.py 377-378), Python int truthiness
  let has_any_signature : ℚ :=
    if has_hand_signed ≠ 0 ∨ has_plate_signed ≠ 0 then 1 else 0
  -- 16. Composite edition / physical scores (main.py 385-391)
  let edition_features : ℚ := has_edition + has_limited_edition + has_certificate
  let physical_features : ℚ := has_frame + has_certificate - has_damage
  -- 17. Interaction features (main.py 393-395)
  let size_artist_interaction : ℚ := area * (artist_data.frequency : ℚ)
  let technique_artist_interaction : ℚ :=
    technique_count * (artist_data.frequency : ℚ)
  -- 19. Market interaction feature (main.py 405-418)
  let tech_artist_data :=
    get_tech_artist_median tdb input_data.technique input_data.artist
  let price_vs_tech_artist_median : ℚ :=
    if 0 < tech_artist_data.median_price ∧ 0 < artist_data.median_price then
      tech_artist_data.median_price / artist_data.median_price
    else 1
  [("OBJECT", FVal.vStr OBJECT),
   ("ARTIST", FVal.vStr ARTIST),
   ("EXPERT", FVal.vStr EXPERT),
   ("TECHNIQUE_SIMPLE", FVal.vStr TECHNIQUE_SIMPLE),
   ("SIGNATURE_SIMPLE", FVal.vStr SIGNATURE_SIMPLE),
   ("CONDITION_SIMPLE", FVal.vStr CONDITION_SIMPLE),
   ("edition_type", FVal.vNum (edition_type_code : ℚ)),
   ("EDITION_TYPE", FVal.vStr EDITION_TYPE),
   ("width", FVal.vNum (width : ℚ)),
   ("height", FVal.vNum (height : ℚ)),
   ("area", FVal.vNum (area : ℚ)),
   ("EXPERT_RAW", FVal.vStr (pyLower input_data.expert)),
   ("auction_year", FVal.vNum 2024),
   ("has_hand_signed", FVal.vNum (has_hand_signed : ℚ)),
   ("has_plate_signed", FVal.vNum (has_plate_signed : ℚ)),
   ("has_unsigned", FVal.vNum (has_unsigned : ℚ)),
   ("has_etching", FVal.vNum (has_etching : ℚ)),
   ("has_lithograph", FVal.vNum (has_lithograph : ℚ)),
   ("has_woodcut", FVal.vNum (has_woodcut : ℚ)),
   ("has_screenprint", FVal.vNum (has_screenprint : ℚ)),
   ("has_limited_edition", FVal.vNum (has_limited_edition : ℚ)),
   ("has_certificate", FVal.vNum (has_certificate : ℚ)),
   ("has_frame", FVal.vNum (has_frame : ℚ)),
   ("has_damage", FVal.vNum (has_damage : ℚ)),
   ("has_edition", FVal.vNum (has_edition : ℚ)),
   ("colorfulness_score", FVal.vNum (colorfulness_score : ℚ)),
   ("svd_entropy", FVal.vNum (svd_entropy_feature : ℚ)),
   ("aspect_ratio", FVal.vNum (aspect_ratio : ℚ)),
   ("log_area", FVal.vNum (Real.log (1 + (area : ℝ)))),
   ("log_width", FVal.vNum (Real.log (1 + (width : ℝ)))),
   ("log_height", FVal.vNum (Real.log (1 + (height : ℝ)))),
   ("area_per_width", FVal.vNum (area_per_width : ℚ)),
   ("area_per_height", FVal.vNum (area_per_height : ℚ)),
   ("size_category", FVal.vStr size_category),
   ("log_age", FVal.vNum (log_age_feature age)),
   ("is_antique", FVal.vNum ((is_antique_flag age : ℤ) : ℝ)),
   ("is_vintage", FVal.vNum ((is_vintage_flag age : ℤ) : ℝ)),
   ("is_modern", FVal.vNum ((is_modern_flag age : ℤ) : ℝ)),
   ("year_category", FVal.vStr year_category),
   ("log_artist_frequency",
     FVal.vNum (Real.log (1 + ((artist_data.frequency : ℤ) : ℝ)))),
   ("artist_rarity", FVal.vNum (artist_rarity : ℚ)),
   ("is_rare_artist", FVal.vNum (is_rare_artist : ℚ)),
   ("is_popular_artist", FVal.vNum (is_popular_artist : ℚ)),
   ("is_very_popular_artist", FVal.vNum (is_very_popular_artist : ℚ)),
   ("artist_frequency", FVal.vNum ((artist_data.frequency : ℤ) : ℝ)),
   ("technique_count", FVal.vNum (technique_count : ℚ)),
   ("technique_score", FVal.vNum (technique_score : ℚ)),
   ("has_multiple_techniques", FVal.vNum (has_multiple_techniques : ℚ)),
   ("has_any_signature", FVal.vNum (has_any_signature : ℚ)),
   ("object_frequency", FVal.vNum 100),
   ("is_rare_object", FVal.vNum 0),
   ("is_common_object", FVal.vNum 1),
   ("edition_features", FVal.vNum (edition_features : ℚ)),
   ("physical_features", FVal.vNum (physical_features : ℚ)),
   ("size_artist_interaction", FVal.vNum (size_artist_interaction : ℚ)),
   ("technique_artist_interaction",
     FVal.vNum (technique_artist_interaction : ℚ)),
   ("title_word_count",
     FVal.vNum (title_word_count_feature input_data.title
       input_data.title_word_count : ℚ)),
   ("price_vs_tech_artist_median",
     FVal.vNum (price_vs_tech_artist_median : ℚ))]

/-- `/predict` builds the feature frame with
`create_all_57_features(artwork, None)` — the explicit image-feature
argument is always `None` (main.py line 596). -/
noncomputable def predict_features
    (adb : List (String × ArtistRecord))
    (tdb : List ((String × String) × TechArtistRecord))
    (artwork : ArtworkInput) : List (String × FVal) :=
  create_features adb tdb artwork none

/-! ## Schema re-projection (`create_all_57_features`, main.py 420-438)

`ordered_features` is a Python dict filled by iterating over
`feature_info['feature_names']`: present computed features are copied,
absent ones are defaulted, where the default is the string `"unknown"`
exactly for the two hard-coded names `size_category` and `year_category`
and the number `0.0` for every other name. (The later
`astype(str)`/`to_numeric` coercion steps at lines 440-451 only rewrite
cell values in place; they do not change the column list.) -/

structure FeatureInfo where
  feature_names : List String
  categorical_indices : List ℕ
  n_features : ℕ

/-- Default fill for a declared feature name absent from the computed
features (main.py lines 432-436). -/
noncomputable def fill_default (feature_name : String) : FVal :=
  if feature_name = "size_category" ∨ feature_name = "year_category" then
    FVal.vStr "unknown"
  else FVal.vNum 0

/-- Cell value chosen for a declared feature name
(main.py lines 428-436). -/
noncomputable def value_for (computed : List (String × FVal)) (feature_name : String) :
    FVal :=
  match computed.lookup feature_name with
  | some v => v
  | none => fill_default feature_name

/-- Assignment `d[k] = v` on a Python dict embedded as an association
list: replace in place if the key is present, append otherwise. -/
def dictUpdate : List (String × FVal) → String → FVal → List (String × FVal)
  | [], k, v => [(k, v)]
  | (k', v') :: d, k, v =>
      if k' = k then (k, v) :: d else (k', v') :: dictUpdate d k v

/-- The `ordered_features` dict of main.py lines 426-436: iterate over the
declared feature names, assigning each its computed value or its default. -/
noncomputable def reindex_features (expected_features : List String)
    (computed : List (String × FVal)) : List (String × FVal) :=
  expected_features.foldl (fun d name => dictUpdate d name (value_for computed name)) []

/-! ## Price rescaler (`predict_price`, main.py lines 612-643) -/

/-- Tier formula for `frequency >= 100` (main.py line 627):
`max(price_pred * 20, median_price * 0.1)`. -/
noncomputable def tier_very_popular (base median : ℝ) : ℝ :=
  max (base * 20) (median * (1 / 10))

/-- Tier formula for `frequency >= 50` (main.py line 630):
`max(price_pred * 15, median_price * 0.05)`. -/
noncomputable def tier_popular (base median : ℝ) : ℝ :=
  max (base * 15) (median * (5 / 100))

/-- Tier formula for `frequency >= 20` (main.py line 633):
`max(price_pred * 10, median_price * 0.02)`. -/
noncomputable def tier_known (base median : ℝ) : ℝ :=
  max (base * 10) (median * (2 / 100))

/-- Tier formula for unknown artists (main.py line 637):
`max(price_pred * 3, 10)`. -/
noncomputable def tier_unknown (base : ℝ) : ℝ :=
  max (base * 3) 10

/-- The price rescaling of `predict_price` (main.py lines 612-643):
`price_pred = np.expm1(log_price_pred)` (that is, `exp raw - 1`), then the
frequency tier evaluated highest threshold first, then
`max(price, 10.0)` followed by `min(price, 1000000.0)`. -/
noncomputable def rescale_price (log_price_pred median_price : ℝ) (frequency : ℤ) : ℝ :=
  let base := Real.exp log_price_pred - 1
  let tiered :=
    if 100 ≤ frequency then tier_very_popular base median_price
    else if 50 ≤ frequency then tier_popular base median_price
    else if 20 ≤ frequency then tier_known base median_price
    else tier_unknown base
  min (max tiered 10) 1000000

/-! ## Image feature extractor (main.py lines 202-257)

`cv2.imread` returning `None` for a missing/unreadable file is embedded as
an `Option` input; the whole body of each extractor is wrapped in
`try/except` returning `0.0`, so each embeds as a total function. The
OpenCV raster is embedded as its list of RGB pixels (for colorfulness)
and, for the entropy, the grayscale decode, the 64x64 resize and the
numpy singular value decomposition are opaque library calls, passed in as
parameters. -/

/-- numpy `np.mean` of a vector. -/
noncomputable def np_mean (xs : List ℝ) : ℝ := xs.sum / xs.length

/-- numpy `np.std` (population standard deviation). -/
noncomputable def np_std (xs : List ℝ) : ℝ :=
  Real.sqrt (np_mean (xs.map (fun x => (x - np_mean xs) ^ 2)))

/-- Body of `calculate_colorfulness` on a successfully read image
(main.py lines 216-226): `rg = R - G`, `yb = 0.5 (R + G) - B`,
`colorfulness = sqrt(std_rg^2 + std_yb^2) + 0.3 * sqrt(mean_rg^2 + mean_yb^2)`. -/
noncomputable def colorfulness_of (pixels : List (ℝ × ℝ × ℝ)) : ℝ :=
  let rg := pixels.map (fun p => p.1 - p.2.1)
  let yb := pixels.map (fun p => (1 / 2) * (p.1 + p.2.1) - p.2.2)
  let std_rg := np_std rg
  let std_yb := np_std yb
  let mean_rg := np_mean rg
  let mean_yb := np_mean yb
  Real.sqrt (std_rg ^ 2 + std_yb ^ 2) + (3 / 10) * Real.sqrt (mean_rg ^ 2 + mean_yb ^ 2)

/-- `calculate_colorfulness` (main.py lines 202-230): returns `0.0` when
image processing is unavailable or the image fails to load; never raises
(the body is guarded by `try/except` returning `0.0`). -/
noncomputable def calculate_colorfulness (available : Bool)
    (image : Option (List (ℝ × ℝ × ℝ))) : ℝ :=
  if available = false then 0
  else
    match image with
    | none => 0
    | some pixels => colorfulness_of pixels

/-- Entropy of a singular value spectrum (main.py lines 246-253):
normalize to sum 1, keep values above `1e-10`, base-2 Shannon entropy. -/
noncomputable def svd_entropy_of (s : List ℝ) : ℝ :=
  let s_normalized := s.map (fun x => x / s.sum)
  let kept := s_normalized.filter (fun p => decide ((1 / 10000000000 : ℝ) < p))
  let entropy := -(kept.map (fun p => p * Real.logb 2 p)).sum
  entropy

/-- `calculate_svd_entropy` (main.py lines 232-257): grayscale decode
result as `Option Img`, `cv2.resize(..., (64, 64))` as `resize64`, the
singular values of `np.linalg.svd` as `svdvals`; returns `0.0` when image
processing is unavailable or the image fails to load, and never raises. -/
noncomputable def calculate_svd_entropy {Img : Type} (available : Bool)
    (resize64 : Img → Img) (svdvals : Img → List ℝ) (image : Option Img) : ℝ :=
  if available = false then 0
  else
    match image with
    | none => 0
    | some img => svd_entropy_of (svdvals (resize64 img))

/-! ## Health endpoint (`health_check`, main.py lines 551-559) -/

inductive HVal where
  | hStr (s : String)
  | hBool (b : Bool)
  | hNat (n : ℕ)
deriving DecidableEq, Repr

/-- The JSON object returned by `GET /health` (main.py lines 551-559),
as an association list in field order. The fourth key is
`"image_processing"`. `features_count` is `feature_info['n_features']`
when a schema is loaded and `0` otherwise. -/
def health_check (model_loaded : Bool) (feature_info : Option FeatureInfo)
    (image_processing_available : Bool) : List (String × HVal) :=
  [("status", HVal.hStr "healthy"),
   ("model_loaded", HVal.hBool model_loaded),
   ("features_count",
     HVal.hNat (match feature_info with
       | some fi => fi.n_features
       | none => 0)),
   ("image_processing", HVal.hBool image_processing_available)]

/-! ## Spec-side formulas and concrete instances used by the theorems -/

/-- The colorfulness formula as the spec states it (spec 4.2):
`sqrt(std(rg)^2 + std(yb)^2) + 0.3 * sqrt(mean(rg)^2 + mean(yb)^2)` over
the per-pixel signals `rg = R - G` and `yb = 0.5 (R + G) - B`. Stated
separately from `colorfulness_of` to compare code against spec. -/
noncomputable def spec_colorfulness (pixels : List (ℝ × ℝ × ℝ)) : ℝ :=
  Real.sqrt ((np_std (pixels.map (fun p => p.1 - p.2.1))) ^ 2 +
      (np_std (pixels.map (fun p => (1 / 2) * (p.1 + p.2.1) - p.2.2))) ^ 2) +
    (3 / 10) *
      Real.sqrt ((np_mean (pixels.map (fun p => p.1 - p.2.1))) ^ 2 +
        (np_mean (pixels.map (fun p => (1 / 2) * (p.1 + p.2.1) - p.2.2))) ^ 2)

/-- The spectral entropy pipeline as the spec states it (spec 4.2): take
the singular value spectrum, normalize it to sum to 1, discard values
below `1e-10`, and compute base-2 Shannon entropy of the remainder.
Stated separately from `svd_entropy_of` to compare code against spec. -/
noncomputable def spec_spectral_entropy (s : List ℝ) : ℝ :=
  -(((s.map (fun x => x / s.sum)).filter
      (fun p => decide ((1 / 10000000000 : ℝ) < p))).map
      (fun p => p * Real.logb 2 p)).sum

/-- A representative request body (values from the repository's own tests,
with `width = 0` for the validation scenario). -/
def width_zero_input : ArtworkInput :=
  { artist := "Pablo Picasso", object_type := "painting",
    technique := "oil on canvas", signature := "hand signed",
    condition := "excellent", edition_type := "unique",
    year := 1907, width := 0, height := 80 }

/-- A well-formed representative request body. -/
def sample_input : ArtworkInput :=
  { artist := "Pablo Picasso", object_type := "painting",
    technique := "oil on canvas", signature := "hand signed",
    condition := "excellent", edition_type := "unique",
    year := 1907, width := 100, height := 80 }

/-- A loaded model schema declaring one feature named `"STYLE"` that the
builder never computes, flagged categorical (index 0). -/
def style_schema : FeatureInfo :=
  { feature_names := ["STYLE"], categorical_indices := [0], n_features := 1 }

/-! ## Helper lemmas -/

lemma dictUpdate_of_notMem (d : List (String × FVal)) (k : String) (v : FVal)
    (h : k ∉ d.map Prod.fst) : dictUpdate d k v = d ++ [(k, v)] := by
  induction d with
  | nil => rfl
  | cons hd tl ih =>
      simp only [List.map_cons, List.mem_cons] at h
      push_neg at h
      cases hd with
      | mk k' v' =>
          simp only [dictUpdate]
          rw [if_neg (by simpa using (Ne.symm h.1))]
          simp [ih h.2]

lemma reindex_aux (c : List (String × FVal)) :
    ∀ (ns : List String) (acc : List (String × FVal)),
      (∀ n ∈ ns, n ∉ acc.map Prod.fst) → ns.Nodup →
      ns.foldl (fun d name => dictUpdate d name (value_for c name)) acc
        = acc ++ ns.map (fun n => (n, value_for c n)) := by
  intro ns
  induction ns with
  | nil => intro acc _ _; simp
  | cons n ns ih =>
      intro acc hacc hnd
      simp only [List.foldl_cons]
      rw [dictUpdate_of_notMem acc n _ (hacc n (List.mem_cons_self n ns))]
      rw [ih (acc ++ [(n, value_for c n)])]
      · simp
      · intro m hm
        simp only [List.map_append, List.mem_append]
        push_neg
        constructor
        · exact hacc m (List.mem_cons_of_mem _ hm)
        · simp only [List.map_cons, List.map_nil, List.mem_singleton]
          intro hmn
          exact (List.nodup_cons.mp hnd).1 (hmn ▸ hm)
      · exact (List.nodup_cons.mp hnd).2

lemma reindex_features_eq_map (expected : List String) (c : List (String × FVal))
    (h : expected.Nodup) :
    reindex_features expected c = expected.map (fun n => (n, value_for c n)) := by
  simpa using reindex_aux c expected [] (by simp) h

lemma lookup_map_pair (g : String → FVal) (x : String) :
    ∀ (names : List String), x ∈ names →
      (names.map (fun n => (n, g n))).lookup x = some (g x) := by
  intro names
  induction names with
  | nil => intro h; simp at h
  | cons n ns ih =>
      intro hx
      by_cases hxn : x = n
      · subst hxn; simp [List.lookup]
      · simp only [List.mem_cons] at hx
        rcases hx with h | h
        · exact absurd h hxn
        · have hbeq : (x == n) = false := beq_eq_false_iff_ne.mpr hxn
          simp only [List.map_cons, List.lookup, hbeq]
          exact ih h

lemma list_sum_nonpos {l : List ℝ} (h : ∀ x ∈ l, x ≤ 0) : l.sum ≤ 0 := by
  induction l with
  | nil => simp
  | cons x xs ih =>
      simp only [List.sum_cons]
      have hx := h x (List.mem_cons_self x xs)
      have hxs := ih (fun y hy => h y (List.mem_cons_of_mem _ hy))
      linarith

lemma svd_entropy_of_nonneg (s : List ℝ) (hs : ∀ x ∈ s, 0 ≤ x) :
    0 ≤ svd_entropy_of s := by
  have hsum : (0 : ℝ) ≤ s.sum := List.sum_nonneg hs
  simp only [svd_entropy_of]
  rw [neg_nonneg]
  apply list_sum_nonpos
  intro y hy
  rcases List.mem_map.mp hy with ⟨p, hp, rfl⟩
  rcases List.mem_filter.mp hp with ⟨hpmem, hpgt⟩
  have hpgt' : (1 / 10000000000 : ℝ) < p := of_decide_eq_true hpgt
  have hp0 : (0 : ℝ) < p := lt_trans (by norm_num) hpgt'
  rcases List.mem_map.mp hpmem with ⟨x, hxmem, rfl⟩
  have hx0 : (0 : ℝ) ≤ x := hs x hxmem
  have hsumpos : (0 : ℝ) < s.sum := by
    rcases lt_or_eq_of_le hsum with h | h
    · exact h
    · exfalso
      rw [← h] at hp0
      simp [div_zero] at hp0
  have hxle : x ≤ s.sum := List.single_le_sum hs x hxmem
  have hple : x / s.sum ≤ 1 := (div_le_one hsumpos).mpr hxle
  have hlog : Real.logb 2 (x / s.sum) ≤ 0 :=
    Real.logb_nonpos (by norm_num) (le_of_lt hp0) hple
  exact mul_nonpos_of_nonneg_of_nonpos (le_of_lt hp0) hlog

/-! ## Claim theorems -/

/-- Claim C1: the price rescaler computes `base_price = expm1(raw)`, then
selects exactly one multiplicative tier by artist frequency, highest
threshold first (freq ≥ 100: `max(base*20, median*0.10)`; freq ≥ 50:
`max(base*15, median*0.05)`; freq ≥ 20: `max(base*10, median*0.02)`;
otherwise `max(base*3, 10)`), and clamps the result to `[10, 1000000]`;
in particular with frequency 150, median 50000 and base price 100
(raw = log 101) the final price is 5000. -/
theorem claim_C1_rescaler :
    (∀ (raw m : ℝ) (f : ℤ),
        10 ≤ rescale_price raw m f ∧
        rescale_price raw m f ≤ 1000000 ∧
        (100 ≤ f →
          rescale_price raw m f
            = min (max (max ((Real.exp raw - 1) * 20) (m * (1 / 10))) 10) 1000000) ∧
        (50 ≤ f ∧ f < 100 →
          rescale_price raw m f
            = min (max (max ((Real.exp raw - 1) * 15) (m * (5 / 100))) 10) 1000000) ∧
        (20 ≤ f ∧ f < 50 →
          rescale_price raw m f
            = min (max (max ((Real.exp raw - 1) * 10) (m * (2 / 100))) 10) 1000000) ∧
        (f < 20 →
          rescale_price raw m f
            = min (max (max ((Real.exp raw - 1) * 3) 10) 10) 1000000)) ∧
    Real.exp (Real.log 101) - 1 = 100 ∧
    rescale_price (Real.log 101) 50000 150 = 5000 := by
  refine ⟨?_, ?_, ?_⟩
  · intro raw m f
    refine ⟨?_, ?_, ?_, ?_, ?_, ?_⟩
    · exact le_min (le_max_right _ _) (by norm_num)
    · exact min_le_right _ _
    · intro hf
      simp only [rescale_price, tier_very_popular]
      rw [if_pos hf]
    · rintro ⟨h50, h100⟩
      simp only [rescale_price, tier_popular]
      rw [if_neg (by omega), if_pos h50]
    · rintro ⟨h20, h50⟩
      simp only [rescale_price, tier_known]
      rw [if_neg (by omega), if_neg (by omega), if_pos h20]
    · intro hf
      simp only [rescale_price, tier_unknown]
      rw [if_neg (by omega), if_neg (by omega), if_neg (by omega)]
  · rw [Real.exp_log (by norm_num)]; norm_num
  · simp only [rescale_price, tier_very_popular]
    rw [Real.exp_log (by norm_num)]
    norm_num

/-- Witness for C1 at `raw = 0`, `m = 50000`, `f = 150`, discharging the
`100 ≤ f` hypothesis of the freq ≥ 100 tier case. -/
theorem claim_C1_witness :
    (100 ≤ (150 : ℤ)) ∧
    rescale_price 0 50000 150
      = min (max (max ((Real.exp 0 - 1) * 20) (50000 * (1 / 10))) 10) 1000000 :=
  ⟨by decide, (claim_C1_rescaler.1 0 50000 150).2.2.1 (by decide)⟩

/-- Claim C7: for nonnegative base and median prices the freq ≥ 100 tier
formula dominates the freq ≥ 50 tier formula:
`max(b*20, m*0.10) ≥ max(b*15, m*0.05)`. -/
theorem claim_C7_tier_dominance (b m : ℝ) (hb : 0 ≤ b) (hm : 0 ≤ m) :
    tier_popular b m ≤ tier_very_popular b m := by
  unfold tier_popular tier_very_popular
  apply max_le_max
  · nlinarith
  · nlinarith

/-- Witness for C7 at `b = m = 0`. -/
theorem claim_C7_witness : tier_popular 0 0 ≤ tier_very_popular 0 0 :=
  claim_C7_tier_dominance 0 0 (le_refl 0) (le_refl 0)

/-- Claim C8: the builder computes `age = 2024 - year`,
`log_age = log1p(max(0, age))`, and the three flags antique (age ≥ 100),
vintage (20 ≤ age < 100) and modern (age < 20), of which exactly one is 1;
year = 2024 gives age 0, `is_modern = 1`, `is_antique = 0`,
`is_vintage = 0` and `log_age = 0.0`. -/
theorem claim_C8_age_features :
    (∀ y : ℤ,
        is_antique_flag (artwork_age y) + is_vintage_flag (artwork_age y) +
          is_modern_flag (artwork_age y) = 1) ∧
    (∀ age : ℤ,
        (is_antique_flag age = 0 ∨ is_antique_flag age = 1) ∧
        (is_vintage_flag age = 0 ∨ is_vintage_flag age = 1) ∧
        (is_modern_flag age = 0 ∨ is_modern_flag age = 1)) ∧
    (∀ (adb : List (String × ArtistRecord))
        (tdb : List ((String × String) × TechArtistRecord))
        (a : ArtworkInput) (img : Option (ℚ × ℚ)),
        (create_features adb tdb a img).lookup "is_antique"
          = some (FVal.vNum ((is_antique_flag (artwork_age a.year) : ℤ) : ℝ)) ∧
        (create_features adb tdb a img).lookup "is_vintage"
          = some (FVal.vNum ((is_vintage_flag (artwork_age a.year) : ℤ) : ℝ)) ∧
        (create_features adb tdb a img).lookup "is_modern"
          = some (FVal.vNum ((is_modern_flag (artwork_age a.year) : ℤ) : ℝ)) ∧
        (create_features adb tdb a img).lookup "log_age"
          = some (FVal.vNum (log_age_feature (artwork_age a.year)))) ∧
    (artwork_age 2024 = 0 ∧ is_modern_flag 0 = 1 ∧ is_antique_flag 0 = 0 ∧
      is_vintage_flag 0 = 0 ∧ log_age_feature 0 = 0) := by
  refine ⟨?_, ?_, ?_, ?_, ?_, ?_, ?_, ?_⟩
  · intro y
    simp only [is_antique_flag, is_vintage_flag, is_modern_flag]
    split_ifs <;> omega
  · intro age
    refine ⟨?_, ?_, ?_⟩ <;>
      simp only [is_antique_flag, is_vintage_flag, is_modern_flag] <;>
      split_ifs <;> simp
  · intro adb tdb a img
    exact ⟨rfl, rfl, rfl, rfl⟩
  · decide
  · decide
  · decide
  · decide
  · simp [log_age_feature]

/-- Claim C5: both extractors absorb failure: with image processing
unavailable, or with a missing/unreadable image (`cv2.imread` returning
`None`), they return `0.0` and never raise. -/
theorem claim_C5_extractors_absorb_failure :
    (∀ available : Bool, calculate_colorfulness available none = 0) ∧
    (∀ (Img : Type) (available : Bool) (rz : Img → Img) (sv : Img → List ℝ),
        calculate_svd_entropy available rz sv none = 0) := by
  constructor
  · intro available
    cases available <;> rfl
  · intro Img available rz sv
    cases available <;> rfl

/-- Claim C6: on a readable RGB image, colorfulness equals the spec's
formula `sqrt(std(rg)^2 + std(yb)^2) + 0.3*sqrt(mean(rg)^2 + mean(yb)^2)`
and is nonnegative, and spectral entropy equals the spec's pipeline
(normalize singular values to sum 1, discard values below `1e-10`, base-2
Shannon entropy) and is nonnegative given nonnegative singular values. -/
theorem claim_C6_image_formulas :
    (∀ pixels : List (ℝ × ℝ × ℝ),
        calculate_colorfulness true (some pixels) = spec_colorfulness pixels ∧
        0 ≤ calculate_colorfulness true (some pixels)) ∧
    (∀ (Img : Type) (rz : Img → Img) (sv : Img → List ℝ) (img : Img),
        calculate_svd_entropy true rz sv (some img)
          = spec_spectral_entropy (sv (rz img)) ∧
        ((∀ x ∈ sv (rz img), 0 ≤ x) →
          0 ≤ calculate_svd_entropy true rz sv (some img))) := by
  constructor
  · intro pixels
    refine ⟨rfl, ?_⟩
    show 0 ≤ colorfulness_of pixels
    simp only [colorfulness_of]
    have h1 := Real.sqrt_nonneg
      ((np_std (pixels.map (fun p => p.1 - p.2.1))) ^ 2 +
        (np_std (pixels.map (fun p => (1 / 2) * (p.1 + p.2.1) - p.2.2))) ^ 2)
    have h2 := Real.sqrt_nonneg
      ((np_mean (pixels.map (fun p => p.1 - p.2.1))) ^ 2 +
        (np_mean (pixels.map (fun p => (1 / 2) * (p.1 + p.2.1) - p.2.2))) ^ 2)
    nlinarith
  · intro Img rz sv img
    refine ⟨rfl, ?_⟩
    intro hs
    show 0 ≤ svd_entropy_of (sv (rz img))
    exact svd_entropy_of_nonneg _ hs

/-- Witness for C6 on the singleton spectrum `[1]`, discharging the
nonnegativity hypothesis on the singular values. -/
theorem claim_C6_witness :
    (∀ x ∈ ([1] : List ℝ), 0 ≤ x) ∧
    0 ≤ calculate_svd_entropy true (fun u : Unit => u) (fun _ : Unit => [1]) (some ()) := by
  have hall : ∀ x ∈ ([1] : List ℝ), 0 ≤ x := by
    intro x hx
    rw [List.mem_singleton] at hx
    rw [hx]
    exact zero_le_one
  exact ⟨hall,
    (claim_C6_image_formulas.2 Unit (fun u => u) (fun _ => [1]) ()).2 hall⟩

/-- Claim C2, counterexample: with a loaded schema declaring the feature
`"STYLE"` at categorical index 0, a name the builder never computes, the
re-projected vector fills the slot with the number `0.0`, not with the
categorical default `"unknown"`: the fill rule is keyed on the literal
names `size_category`/`year_category`, not on the categorical flag. -/
theorem claim_C2_counterexample :
    style_schema.categorical_indices = [0] ∧
    style_schema.feature_names = ["STYLE"] ∧
    (create_features [] [] sample_input none).lookup "STYLE" = none ∧
    (reindex_features style_schema.feature_names
        (create_features [] [] sample_input none)).lookup "STYLE"
      = some (FVal.vNum 0) ∧
    FVal.vNum 0 ≠ FVal.vStr "unknown" :=
  ⟨rfl, rfl, rfl, rfl, fun h => FVal.noConfusion h⟩

/-- Claim C2 (amended): for every input and every schema with distinct
declared names, the re-projected vector contains exactly the declared
feature names in the declared order, and a declared name absent from the
computed features is filled with `"unknown"` exactly when it is the
literal name `size_category` or `year_category`, and with `0.0`
otherwise. -/
theorem claim_C2_schema_projection
    (adb : List (String × ArtistRecord))
    (tdb : List ((String × String) × TechArtistRecord))
    (a : ArtworkInput) (img : Option (ℚ × ℚ)) (fi : FeatureInfo)
    (hnd : fi.feature_names.Nodup) :
    ((reindex_features fi.feature_names (create_features adb tdb a img)).map
        Prod.fst = fi.feature_names) ∧
    (∀ name ∈ fi.feature_names,
        (create_features adb tdb a img).lookup name = none →
        (reindex_features fi.feature_names (create_features adb tdb a img)).lookup
            name
          = some (if name = "size_category" ∨ name = "year_category" then
              FVal.vStr "unknown" else FVal.vNum 0)) := by
  rw [reindex_features_eq_map _ _ hnd]
  constructor
  · induction fi.feature_names with
    | nil => rfl
    | cons n ns ih => simp only [List.map_cons, ih]
  · intro name hmem hnone
    rw [lookup_map_pair _ _ _ hmem]
    simp [value_for, hnone, fill_default]

/-- Witness for C2 (amended) on the `"STYLE"` schema, discharging the
no-duplicates, membership and absence hypotheses. -/
theorem claim_C2_witness :
    style_schema.feature_names.Nodup ∧
    ("STYLE" ∈ style_schema.feature_names) ∧
    ((create_features [] [] sample_input none).lookup "STYLE" = none) ∧
    (reindex_features style_schema.feature_names
        (create_features [] [] sample_input none)).lookup "STYLE"
      = some (if "STYLE" = "size_category" ∨ "STYLE" = "year_category" then
          FVal.vStr "unknown" else FVal.vNum 0) :=
  ⟨by decide, by decide, rfl,
    (claim_C2_schema_projection [] [] sample_input none style_schema
        (by decide)).2 "STYLE" (by decide) rfl⟩

/-- Claim C3: the `ArtworkInput` pydantic model declares no range
validators, so a request with `width = 0` (or an out-of-range year)
passes validation and feature construction proceeds and produces the full
58-column feature dict — contradicting the repository's own tests, which
expect such construction to raise a validation error. -/
theorem claim_C3_no_range_validation :
    validate_artwork_input width_zero_input = Except.ok width_zero_input ∧
    width_zero_input.width = 0 ∧
    (create_features sample_artists [] width_zero_input none).lookup "width"
      = some (FVal.vNum ((0 : ℚ) : ℝ)) ∧
    (create_features sample_artists [] width_zero_input none).lookup "area"
      = some (FVal.vNum ((0 * 80 : ℚ) : ℝ)) ∧
    ((create_features sample_artists [] width_zero_input none).map
        Prod.fst).length = 58 :=
  ⟨rfl, rfl, rfl, rfl, by decide⟩

/-- Claim C4, counterexample: `get_artist_data` lower-cases but does NOT
trim, so a name with leading whitespace misses the stored record and
falls back to the default: `" pablo picasso"` and `"pablo picasso"`
return different records against the seeded store. -/
theorem claim_C4_counterexample :
    get_artist_data sample_artists " pablo picasso"
      ≠ get_artist_data sample_artists "pablo picasso" ∧
    get_artist_data sample_artists "pablo picasso"
      = ⟨150, 50000, 25000⟩ ∧
    get_artist_data sample_artists " pablo picasso" = defaultArtistRecord := by
  refine ⟨?_, ?_, ?_⟩ <;> decide

/-- Claim C4 (amended): the lookup normalizes by lower-casing only, so any
two names with the same lower-casing (e.g. differing only in letter case)
yield identical records, and any name whose lower-cased form is not
stored yields the default record `{frequency = 1, median_price = 500.0,
price_std = 250.0}` rather than failing. -/
theorem claim_C4_case_insensitive_lookup
    (db : List (String × ArtistRecord)) (n1 n2 : String)
    (h : pyLower n1 = pyLower n2) :
    get_artist_data db n1 = get_artist_data db n2 ∧
    (db.lookup (pyLower n1) = none →
      get_artist_data db n1 = defaultArtistRecord) := by
  constructor
  · unfold get_artist_data
    rw [h]
  · intro hnone
    unfold get_artist_data
    rw [hnone]

/-- Witness for C4 (amended): a case variant of a seeded artist and an
unknown artist, discharging the equal-lower-casing and lookup-miss
hypotheses. -/
theorem claim_C4_witness :
    (pyLower "PABLO Picasso" = pyLower "pablo picasso") ∧
    (sample_artists.lookup (pyLower "jane doe") = none) ∧
    get_artist_data sample_artists "PABLO Picasso"
      = get_artist_data sample_artists "pablo picasso" ∧
    get_artist_data sample_artists "jane doe" = defaultArtistRecord :=
  ⟨by decide, by decide,
    (claim_C4_case_insensitive_lookup sample_artists "PABLO Picasso"
        "pablo picasso" (by decide)).1,
    (claim_C4_case_insensitive_lookup sample_artists "jane doe" "jane doe"
        rfl).2 (by decide)⟩

/-- Claim C9, counterexample: the `/health` response has no key named
`image_processing_available` — the fourth key is `image_processing`. -/
theorem claim_C9_counterexample :
    ("image_processing_available" ∉ (health_check false none false).map Prod.fst) ∧
    (health_check false none false).map Prod.fst
      ≠ ["status", "model_loaded", "features_count", "image_processing_available"] := by
  refine ⟨?_, ?_⟩ <;> decide

/-- Claim C9 (amended): every `/health` response has exactly the keys
`status`, `model_loaded`, `features_count` and `image_processing` in that
order; `model_loaded` reflects the model flag and `features_count` is the
loaded schema's `n_features` (0 when no schema is loaded). -/
theorem claim_C9_health_shape (ml : Bool) (fi : Option FeatureInfo) (ip : Bool) :
    (health_check ml fi ip).map Prod.fst
      = ["status", "model_loaded", "features_count", "image_processing"] ∧
    (health_check ml fi ip).lookup "model_loaded" = some (HVal.hBool ml) ∧
    (health_check ml fi ip).lookup "features_count"
      = some (HVal.hNat (match fi with | some f => f.n_features | none => 0)) ∧
    (health_check ml fi ip).lookup "image_processing" = some (HVal.hBool ip) :=
  ⟨rfl, rfl, rfl, rfl⟩

/-- Claim C10: `/predict` invokes the feature builder with image features
`None`, so the `colorfulness_score` and `svd_entropy` slots always carry
the request-level optional fields through Python `or` — the supplied
value when supplied and truthy (non-`None`, non-zero), and `0.0`
otherwise. -/
theorem claim_C10_predict_image_slots :
    (∀ (adb : List (String × ArtistRecord))
        (tdb : List ((String × String) × TechArtistRecord))
        (a : ArtworkInput),
        predict_features adb tdb a = create_features adb tdb a none) ∧
    (∀ (adb : List (String × ArtistRecord))
        (tdb : List ((String × String) × TechArtistRecord))
        (a : ArtworkInput),
        (predict_features adb tdb a).lookup "colorfulness_score"
          = some (FVal.vNum ((pyOrFloat a.colorfulness_score 0 : ℚ) : ℝ)) ∧
        (predict_features adb tdb a).lookup "svd_entropy"
          = some (FVal.vNum ((pyOrFloat a.svd_entropy 0 : ℚ) : ℝ))) ∧
    (∀ v : ℚ, v ≠ 0 → pyOrFloat (some v) 0 = v) ∧
    pyOrFloat none 0 = 0 ∧
    (∀ d : ℚ, pyOrFloat (some 0) d = d) := by
  refine ⟨fun _ _ _ => rfl, fun _ _ _ => ⟨rfl, rfl⟩, ?_, rfl, ?_⟩
  · intro v hv
    simp [pyOrFloat, hv]
  · intro d
    simp [pyOrFloat]

/-- Witness for C10 at the truthy supplied value 5, discharging the
nonzero hypothesis. -/
theorem claim_C10_witness : ((5 : ℚ) ≠ 0) ∧ pyOrFloat (some 5) 0 = 5 :=
  ⟨by decide, claim_C10_predict_image_slots.2.2.1 5 (by decide)⟩

end ArtifexAI
